import Mathlib

/-!
Verification of the Sentient-Splat-Slam splat rendering pipeline.

Shallow embedding of the C++ sources:
  * `src/scene/Scene.hpp`        — `Gaussian3D`, `GaussianInstanceGPU`, `Scene`
  * `src/render/Renderer.cpp`    — `Renderer::render_scene`,
                                   `Renderer::create_shader_program`
                                   (vertex + fragment shader semantics)
  * `src/render/Shader.cpp`      — `Shader::compile`, `Shader::create_program`
  * `src/scene/SceneIO.cpp`      — `SceneIO::load_scene_json`

Scalars of the data model are a type parameter `α` (the C++ code moves the
float fields around without arithmetic); the shader arithmetic is embedded
over `ℝ`.  GPU side effects are embedded as an explicit command trace.
-/

namespace SSS

/-- Embeds `glm::vec3`, scalar-polymorphic. -/
structure Vec3 (α : Type) where
  x : α
  y : α
  z : α
  deriving DecidableEq, Repr

/-- Embeds `glm::vec4`, scalar-polymorphic. -/
structure Vec4 (α : Type) where
  x : α
  y : α
  z : α
  w : α
  deriving DecidableEq, Repr

/-- Embeds `glm::quat`: stored fields x, y, z, w; the `glm::quat(w,x,y,z)`
constructor takes `w` first. -/
structure Quat (α : Type) where
  x : α
  y : α
  z : α
  w : α
  deriving DecidableEq, Repr

/-- Embeds `Gaussian3D` from `Scene.hpp`: mean, scale, rotation, opacity, color. -/
structure Gaussian3D (α : Type) where
  mean : Vec3 α
  scale : Vec3 α
  rotation : Quat α
  opacity : α
  color : Vec3 α
  deriving DecidableEq, Repr

/-- Embeds `GaussianInstanceGPU` from `Scene.hpp`: the 64-byte GPU layout, four
4-component float groups. -/
structure GaussianInstanceGPU (α : Type) where
  mean_opacity : Vec4 α
  quat : Vec4 α
  scale_colorx : Vec4 α
  coloryz_pad : Vec4 α
  deriving DecidableEq, Repr

/-- The loop body of `Renderer::render_scene` (Renderer.cpp, the
`for (const auto& g : gaussians)` loop): one `Gaussian3D` packed into one
`GaussianInstanceGPU`.  `color.r` is `color.x` in glm. -/
def pack_gaussian [Zero α] (g : Gaussian3D α) : GaussianInstanceGPU α :=
  { mean_opacity := ⟨g.mean.x, g.mean.y, g.mean.z, g.opacity⟩
    quat := ⟨g.rotation.x, g.rotation.y, g.rotation.z, g.rotation.w⟩
    scale_colorx := ⟨g.scale.x, g.scale.y, g.scale.z, g.color.x⟩
    coloryz_pad := ⟨g.color.y, g.color.z, 0, 0⟩ }

/-- The whole packing loop of `Renderer::render_scene`: `instanceData` is
built by one `push_back` per gaussian, in order — a map. -/
def pack_instances [Zero α] (gs : List (Gaussian3D α)) :
    List (GaussianInstanceGPU α) :=
  gs.map pack_gaussian

/-- The inverse reading of the 64-byte layout, following the field
documentation in `Scene.hpp` and the attribute decoding in the vertex
shader (`iMeanOpacity.xyz` = mean, `.w` = opacity, `iQuat` = rotation xyzw,
`iScaleColorX.xyz` = scale, `.w` = color.r, `iColorYZPad.xy` = color.gb). -/
def unpack_instance (inst : GaussianInstanceGPU α) : Gaussian3D α :=
  { mean := ⟨inst.mean_opacity.x, inst.mean_opacity.y, inst.mean_opacity.z⟩
    scale := ⟨inst.scale_colorx.x, inst.scale_colorx.y, inst.scale_colorx.z⟩
    rotation := ⟨inst.quat.x, inst.quat.y, inst.quat.z, inst.quat.w⟩
    opacity := inst.mean_opacity.w
    color := ⟨inst.scale_colorx.w, inst.coloryz_pad.x, inst.coloryz_pad.y⟩ }

/-! ## Shader semantics (Renderer.cpp, `vs_src` / `fs_src`), over `ℝ` -/

/-- A 4-by-4 matrix of reals, indexed row then column (`uView`, `uProj`). -/
def Mat4 : Type := Fin 4 → Fin 4 → ℝ

/-- GLSL `mat4 * vec4` product. -/
def mat4_mul_vec4 (M : Mat4) (v : Vec4 ℝ) : Vec4 ℝ :=
  ⟨M 0 0 * v.x + M 0 1 * v.y + M 0 2 * v.z + M 0 3 * v.w,
   M 1 0 * v.x + M 1 1 * v.y + M 1 2 * v.z + M 1 3 * v.w,
   M 2 0 * v.x + M 2 1 * v.y + M 2 2 * v.z + M 2 3 * v.w,
   M 3 0 * v.x + M 3 1 * v.y + M 3 2 * v.z + M 3 3 * v.w⟩

/-- GLSL `clamp(x, lo, hi)` = `min(max(x, lo), hi)`. -/
def glsl_clamp (x lo hi : ℝ) : ℝ := min (max x lo) hi

/-- The constant `float eps = 0.03;` in the vertex shader (`vs_src`). -/
def vs_eps : ℝ := 0.03

/-- Vertex-shader radius from opacity (`vs_src`):
`op = max(vOpacity, eps); r2 = 2.0*log(op/eps); r = sqrt(max(r2, 0.0));
r = min(r, 1.5);`. -/
noncomputable def vs_radius (opacity : ℝ) : ℝ :=
  let op := max opacity vs_eps
  let r2 := 2 * Real.log (op / vs_eps)
  let r := Real.sqrt (max r2 0)
  min r 1.5

/-- Vertex-shader camera-space depth (`vs_src`):
`float z = max(-(uView * vec4(iMeanOpacity.xyz, 1.0)).z, 0.1);`. -/
def vs_depth (view : Mat4) (mean : Vec3 ℝ) : ℝ :=
  max (-(mat4_mul_vec4 view ⟨mean.x, mean.y, mean.z, 1⟩).z) 0.1

/-- Vertex-shader world-size clamp (`vs_src`):
`float maxWorld = 0.01 * z; vec2 s = min(iScaleColorX.xy, vec2(maxWorld));`. -/
def vs_clamped_scale (view : Mat4) (mean : Vec3 ℝ) (sx sy : ℝ) : ℝ × ℝ :=
  let z := vs_depth view mean
  let maxWorld := 0.01 * z
  (min sx maxWorld, min sy maxWorld)

/-- Outputs of the vertex shader `main`. -/
structure VSOut where
  vLocalPos : ℝ × ℝ
  vColor : Vec3 ℝ
  vOpacity : ℝ
  gl_Position : Vec4 ℝ

/-- The vertex shader `main` (`vs_src` in `Renderer::create_shader_program`):
camera right/up are the columns of `transpose(mat3(uView))`, i.e. the first
two rows of the view rotation; billboard corner offset scaled by the clamped
scale and the opacity radius. -/
noncomputable def vertex_shader (view proj : Mat4) (quadPos : ℝ × ℝ)
    (inst : GaussianInstanceGPU ℝ) : VSOut :=
  let vColor : Vec3 ℝ := ⟨inst.scale_colorx.w, inst.coloryz_pad.x, inst.coloryz_pad.y⟩
  let vOpacity := inst.mean_opacity.w
  let right : Vec3 ℝ := ⟨view 0 0, view 0 1, view 0 2⟩
  let up : Vec3 ℝ := ⟨view 1 0, view 1 1, view 1 2⟩
  let r := vs_radius vOpacity
  let mean : Vec3 ℝ := ⟨inst.mean_opacity.x, inst.mean_opacity.y, inst.mean_opacity.z⟩
  let s := vs_clamped_scale view mean inst.scale_colorx.x inst.scale_colorx.y
  let worldPos : Vec3 ℝ :=
    ⟨mean.x + right.x * (quadPos.1 * s.1 * r) + up.x * (quadPos.2 * s.2 * r),
     mean.y + right.y * (quadPos.1 * s.1 * r) + up.y * (quadPos.2 * s.2 * r),
     mean.z + right.z * (quadPos.1 * s.1 * r) + up.z * (quadPos.2 * s.2 * r)⟩
  { vLocalPos := quadPos
    vColor := vColor
    vOpacity := vOpacity
    gl_Position :=
      mat4_mul_vec4 proj (mat4_mul_vec4 view ⟨worldPos.x, worldPos.y, worldPos.z, 1⟩) }

/-- The discard threshold literal in the fragment shader
(`if (alpha < 0.03) discard;`). -/
def fs_threshold : ℝ := 0.03

/-- Fragment-shader alpha (`fs_src`): `r2 = dot(vLocalPos, vLocalPos);
t = clamp(1.0 - r2, 0.0, 1.0); alpha = vOpacity * t * t;`. -/
def frag_alpha (opacity lx ly : ℝ) : ℝ :=
  let r2 := lx * lx + ly * ly
  let t := glsl_clamp (1 - r2) 0 1
  opacity * t * t

open Classical in
/-- The fragment shader `main` (`fs_src`): `none` models `discard` (no color
or depth write); otherwise the premultiplied output
`vec4(vColor * alpha, alpha)`. -/
noncomputable def fragment_shader (color : Vec3 ℝ) (opacity lx ly : ℝ) :
    Option (Vec4 ℝ) :=
  let alpha := frag_alpha opacity lx ly
  if alpha < fs_threshold then none
  else some ⟨color.x * alpha, color.y * alpha, color.z * alpha, alpha⟩

/-! ## `Renderer::render_scene` as an explicit GL command trace -/

/-- One GL call issued by `Renderer::render_scene`, in source order. -/
inductive GLCmd where
  /-- Call `vbo->set_data(GL_ARRAY_BUFFER, instanceData, GL_DYNAMIC_DRAW)`. -/
  | bufferData (data : List (GaussianInstanceGPU ℝ))
  /-- Call `glEnable(GL_BLEND)` or `glDisable(GL_BLEND)`. -/
  | blend (enabled : Bool)
  /-- Call `glBlendFunc(GL_ONE, GL_ONE_MINUS_SRC_ALPHA)`. -/
  | blendFuncPremultiplied
  /-- Call `glEnable(GL_DEPTH_TEST)`. -/
  | depthTest (enabled : Bool)
  /-- Call `glDepthMask(flag)`. -/
  | depthMask (flag : Bool)
  /-- Call `glUseProgram(m_program)`. -/
  | useProgram
  /-- the two `glUniformMatrix4fv` calls for `uView` and `uProj` -/
  | setViewProj (view proj : Mat4)
  /-- Call `glBindVertexArray(m_quad_mesh->vao())`. -/
  | bindVertexArray
  /-- Call `glBindBuffer(GL_ARRAY_BUFFER, ...)`. -/
  | bindArrayBuffer
  /-- the attribute-setup loop (`glVertexAttribPointer` / `glVertexAttribDivisor`) -/
  | instanceAttribs
  /-- Call `glDrawArraysInstanced(GL_TRIANGLES, 0, 6, instance_count)`. -/
  | drawArraysInstanced (vertexCount instanceCount : ℕ)

/-- Embeds `Renderer::render_scene` (Renderer.cpp): early-out on an empty scene,
else pack, upload, set state, draw, restore state. -/
def render_scene (gaussians : List (Gaussian3D ℝ)) (view proj : Mat4) :
    List GLCmd :=
  if gaussians.isEmpty then []
  else
    let instanceData := pack_instances gaussians
    [GLCmd.bufferData instanceData,
     GLCmd.blend true,
     GLCmd.blendFuncPremultiplied,
     GLCmd.depthTest true,
     GLCmd.depthMask false,
     GLCmd.useProgram,
     GLCmd.setViewProj view proj,
     GLCmd.bindVertexArray,
     GLCmd.bindArrayBuffer,
     GLCmd.instanceAttribs,
     GLCmd.drawArraysInstanced 6 instanceData.length,
     GLCmd.depthMask true,
     GLCmd.blend false]

/-- The GL state bits touched by `render_scene`. -/
structure GLState where
  blendEnabled : Bool
  depthTestEnabled : Bool
  depthMaskFlag : Bool
  deriving DecidableEq, Repr

/-- Effect of one GL command on the tracked state. -/
def applyCmd (s : GLState) : GLCmd → GLState
  | GLCmd.blend b => { s with blendEnabled := b }
  | GLCmd.depthTest b => { s with depthTestEnabled := b }
  | GLCmd.depthMask b => { s with depthMaskFlag := b }
  | _ => s

/-- Run a command list from a starting GL state. -/
def runCmds (s : GLState) (cs : List GLCmd) : GLState :=
  cs.foldl applyCmd s

/-! ## `Shader::compile` / `Shader::create_program` (Shader.cpp)

The GL compile/link status queries and info logs are external inputs;
they are abstracted as a record of outcomes.  Exceptions are embedded as
`Except String`, GL object bookkeeping as an action trace. -/

/-- Outcomes of the external GL steps: `GL_COMPILE_STATUS` and info log for
the vertex and fragment shaders, `GL_LINK_STATUS` and info log for the
program. -/
structure GLShaderEnv where
  vsOk : Bool
  vsLog : String
  fsOk : Bool
  fsLog : String
  linkOk : Bool
  linkLog : String
  deriving DecidableEq, Repr

/-- GL object bookkeeping and logging performed on the shader path. -/
inductive GLObjAct where
  | deleteShader (handle : ℕ)
  | deleteProgram (handle : ℕ)
  | logError (msg : String)
  deriving DecidableEq, Repr

/-- Embeds `Shader::compile` (Shader.cpp): if `GL_COMPILE_STATUS` is false, the
shader object is deleted and a `runtime_error` carrying the info log is
thrown.  `handle` is the id `glCreateShader` returned. -/
def Shader.compile (ok : Bool) (log : String) (handle : ℕ) :
    Except String ℕ × List GLObjAct :=
  if ok then (Except.ok handle, [])
  else (Except.error ("Shader compile failed: " ++ log),
        [GLObjAct.deleteShader handle])

/-- Embeds `Shader::create_program` (Shader.cpp): compile the vertex shader
(handle 1), then the fragment shader (handle 2); attach both to program
handle 3, link, delete the two shaders, and on `GL_LINK_STATUS` false
delete the program and throw with the link log. -/
def Shader.create_program (env : GLShaderEnv) :
    Except String ℕ × List GLObjAct :=
  match Shader.compile env.vsOk env.vsLog 1 with
  | (Except.error e, acts) => (Except.error e, acts)
  | (Except.ok vs, actsV) =>
    match Shader.compile env.fsOk env.fsLog 2 with
    | (Except.error e, actsF) => (Except.error e, actsV ++ actsF)
    | (Except.ok fs, actsF) =>
      let acts := actsV ++ actsF ++
        [GLObjAct.deleteShader vs, GLObjAct.deleteShader fs]
      if env.linkOk then (Except.ok 3, acts)
      else (Except.error ("Program link failed: " ++ env.linkLog),
            acts ++ [GLObjAct.deleteProgram 3])

/-- Embeds `Renderer::create_shader_program` (Renderer.cpp): calls
`Shader::create_program`; on exception, logs the message to stderr and
re-throws the same exception. -/
def Renderer.create_shader_program (env : GLShaderEnv) :
    Except String ℕ × List GLObjAct :=
  match Shader.create_program env with
  | (Except.error e, acts) =>
      (Except.error e,
       acts ++ [GLObjAct.logError ("[Renderer] Shader creation failed: " ++ e)])
  | r => r

/-! ## `SceneIO::load_scene_json` (SceneIO.cpp)

The nlohmann json document is embedded as an inductive value (numbers as
`ℚ`); file opening and textual parsing are external I/O and stay outside
the model.  The three exception sites are embedded as an error type. -/

/-- A JSON value in the style of nlohmann::json. -/
inductive Json where
  | null
  | bool (b : Bool)
  | num (v : ℚ)
  | str (s : String)
  | arr (items : List Json)
  | obj (fields : List (String × Json))

/-- Embeds `json::contains(key)`: true only for an object holding the key. -/
def Json.containsKey (j : Json) (key : String) : Bool :=
  match j with
  | Json.obj fields => fields.any (fun p => p.1 == key)
  | _ => false

/-- Embeds `operator[](key)`: the value stored under the key (only used after a
`contains` check in the source). -/
def Json.getKey (j : Json) (key : String) : Json :=
  match j with
  | Json.obj fields =>
    match fields.find? (fun p => p.1 == key) with
    | some p => p.2
    | none => Json.null
  | _ => Json.null

/-- Embeds `is_array()`. -/
def Json.isArr : Json → Bool
  | Json.arr _ => true
  | _ => false

/-- Embeds `is_number()`. -/
def Json.isNumber : Json → Bool
  | Json.num _ => true
  | _ => false

/-- Embeds `size()`: element count of an array or object, 0 for null, 1 for
primitives. -/
def Json.size : Json → ℕ
  | Json.arr xs => xs.length
  | Json.obj fs => fs.length
  | Json.null => 0
  | _ => 1

/-- Embeds `operator[](i)` on an array (only used after the `is_array` and `size`
checks in the source). -/
def Json.idx : Json → ℕ → Json
  | Json.arr xs, i => xs.getD i Json.null
  | _, _ => Json.null

/-- The elements of an array value. -/
def Json.elems : Json → List Json
  | Json.arr xs => xs
  | _ => []

/-- The exceptions `SceneIO::load_scene_json` can throw, by site:
the missing/mis-typed `gaussians` member, a gaussian entry without a
`color` member, and the nlohmann type error raised when a json value is
converted to float but is not a number. -/
inductive SceneIOError where
  | missingGaussiansArray
  | gaussianMissingColor
  | numberTypeError
  deriving DecidableEq, Repr

/-- The implicit json-to-float conversion used in
`glm::vec3(item["color"][0], ...)` and `get<float>()`: a type error
unless the value is a number. -/
def Json.toFloat : Json → Except SceneIOError ℚ
  | Json.num v => Except.ok v
  | _ => Except.error SceneIOError.numberTypeError

/-- One iteration of the gaussian loop in `SceneIO::load_scene_json`:
`color` is mandatory (throw otherwise); its three components are converted
first; `mean` (with alias `position`), `scale`, `rotation`, `opacity` are
optional and keep the defaults mean (0,0,0), scale (1,1,1), rotation
`glm::quat(1,0,0,0)` (identity, w = 1) and opacity 1 when absent or when
the structural guard (`is_array` and arity, `is_number` for opacity)
fails; no loaded value is clamped.  `glm::quat(a,b,c,d)` takes `w` first,
so a rotation array `[r0,r1,r2,r3]` stores `w = r0`. -/
def parse_gaussian (item : Json) : Except SceneIOError (Gaussian3D ℚ) :=
  if item.containsKey "color" then do
    let c0 ← ((item.getKey "color").idx 0).toFloat
    let c1 ← ((item.getKey "color").idx 1).toFloat
    let c2 ← ((item.getKey "color").idx 2).toFloat
    let mean ←
      if item.containsKey "mean" && (item.getKey "mean").isArr &&
          decide (3 ≤ (item.getKey "mean").size) then do
        let m0 ← ((item.getKey "mean").idx 0).toFloat
        let m1 ← ((item.getKey "mean").idx 1).toFloat
        let m2 ← ((item.getKey "mean").idx 2).toFloat
        pure (⟨m0, m1, m2⟩ : Vec3 ℚ)
      else if item.containsKey "position" && (item.getKey "position").isArr &&
          decide (3 ≤ (item.getKey "position").size) then do
        let m0 ← ((item.getKey "position").idx 0).toFloat
        let m1 ← ((item.getKey "position").idx 1).toFloat
        let m2 ← ((item.getKey "position").idx 2).toFloat
        pure (⟨m0, m1, m2⟩ : Vec3 ℚ)
      else pure (⟨0, 0, 0⟩ : Vec3 ℚ)
    let scale ←
      if item.containsKey "scale" && (item.getKey "scale").isArr &&
          decide (3 ≤ (item.getKey "scale").size) then do
        let s0 ← ((item.getKey "scale").idx 0).toFloat
        let s1 ← ((item.getKey "scale").idx 1).toFloat
        let s2 ← ((item.getKey "scale").idx 2).toFloat
        pure (⟨s0, s1, s2⟩ : Vec3 ℚ)
      else pure (⟨1, 1, 1⟩ : Vec3 ℚ)
    let rotation ←
      if item.containsKey "rotation" && (item.getKey "rotation").isArr &&
          decide (4 ≤ (item.getKey "rotation").size) then do
        let r0 ← ((item.getKey "rotation").idx 0).toFloat
        let r1 ← ((item.getKey "rotation").idx 1).toFloat
        let r2 ← ((item.getKey "rotation").idx 2).toFloat
        let r3 ← ((item.getKey "rotation").idx 3).toFloat
        pure (⟨r1, r2, r3, r0⟩ : Quat ℚ)
      else pure (⟨0, 0, 0, 1⟩ : Quat ℚ)
    let opacity ←
      if item.containsKey "opacity" && (item.getKey "opacity").isNumber then
        ((item.getKey "opacity")).toFloat
      else pure (1 : ℚ)
    pure { mean := mean, scale := scale, rotation := rotation,
           opacity := opacity, color := ⟨c0, c1, c2⟩ }
  else Except.error SceneIOError.gaussianMissingColor

/-- The gaussian loop of `load_scene_json`: entries parsed front to back,
the first thrown exception aborts the load. -/
def parse_gaussians : List Json → Except SceneIOError (List (Gaussian3D ℚ))
  | [] => Except.ok []
  | item :: rest => do
    let g ← parse_gaussian item
    let gs ← parse_gaussians rest
    pure (g :: gs)

/-- Embeds `SceneIO::load_scene_json` after the external file read: throw unless
the document holds a `gaussians` array, then parse every entry in order. -/
def load_scene_json (j : Json) : Except SceneIOError (List (Gaussian3D ℚ)) :=
  if j.containsKey "gaussians" && (j.getKey "gaussians").isArr then
    parse_gaussians (j.getKey "gaussians").elems
  else Except.error SceneIOError.missingGaussiansArray

end SSS

namespace SSS

/-- C1: packing preserves length and order: the i-th packed instance is the
64-byte mapping of the i-th gaussian. -/
theorem pack_instances_length_get [Zero α] (gs : List (Gaussian3D α))
    (i : ℕ) (h : i < gs.length) :
    (pack_instances gs).length = gs.length ∧
      (pack_instances gs).get ⟨i, by simpa [pack_instances] using h⟩ =
        { mean_opacity := ⟨(gs.get ⟨i, h⟩).mean.x, (gs.get ⟨i, h⟩).mean.y,
            (gs.get ⟨i, h⟩).mean.z, (gs.get ⟨i, h⟩).opacity⟩
          quat := ⟨(gs.get ⟨i, h⟩).rotation.x, (gs.get ⟨i, h⟩).rotation.y,
            (gs.get ⟨i, h⟩).rotation.z, (gs.get ⟨i, h⟩).rotation.w⟩
          scale_colorx := ⟨(gs.get ⟨i, h⟩).scale.x, (gs.get ⟨i, h⟩).scale.y,
            (gs.get ⟨i, h⟩).scale.z, (gs.get ⟨i, h⟩).color.x⟩
          coloryz_pad := ⟨(gs.get ⟨i, h⟩).color.y, (gs.get ⟨i, h⟩).color.z,
            0, 0⟩ } := by
  refine ⟨by simp [pack_instances], ?_⟩
  simp [pack_instances, pack_gaussian]

/-- C3: unpacking the 64-byte layout recovers every field of the record. -/
theorem unpack_pack_roundtrip [Zero α] (g : Gaussian3D α) :
    unpack_instance (pack_gaussian g) = g := by
  cases g with
  | mk mean scale rotation opacity color =>
    cases mean; cases scale; cases rotation; cases color
    rfl

/-- Helper: any opacity at or below `eps` clamps to `op = eps` and yields
radius 0. -/
lemma vs_radius_eq_zero_of_le {o : ℝ} (h : o ≤ 0.03) : vs_radius o = 0 := by
  have hmax : max o vs_eps = vs_eps := max_eq_right (by simpa [vs_eps] using h)
  have : vs_eps / vs_eps = 1 := div_self (by norm_num [vs_eps])
  simp [vs_radius, hmax, this, Real.log_one]
  norm_num

/-- Helper: `9/8 ≤ log (100/3)`, via `exp (9/8) ≤ exp 2 < 2.7182818286² < 100/3`. -/
lemma le_log_hundred_div_three : (9 / 8 : ℝ) ≤ Real.log (100 / 3) := by
  rw [Real.le_log_iff_exp_le (by norm_num : (0:ℝ) < 100 / 3)]
  have h2 : Real.exp (9 / 8) ≤ Real.exp 2 := Real.exp_le_exp.mpr (by norm_num)
  have he : Real.exp 2 = Real.exp 1 * Real.exp 1 := by
    rw [← Real.exp_add]; norm_num
  have h1 : Real.exp 1 < 2.7182818286 := Real.exp_one_lt_d9
  have hpos : (0:ℝ) < Real.exp 1 := Real.exp_pos 1
  have : Real.exp 1 * Real.exp 1 < 2.7182818286 * 2.7182818286 := by
    nlinarith [h1, hpos]
  nlinarith [this, he, h2]

/-- C2: the vertex-stage radius is
`min(sqrt(max(2*ln(max(opacity,0.03)/0.03), 0)), 1.5)`; it is monotonically
non-decreasing in opacity, opacity 1 gives the capped 1.5, opacity 0.03
gives 0, and any opacity below 0.03 gives 0. -/
theorem vs_radius_spec (a b : ℝ) (hab : a ≤ b) :
    (∀ o : ℝ, vs_radius o =
        min (Real.sqrt (max (2 * Real.log (max o 0.03 / 0.03)) 0)) 1.5) ∧
    vs_radius a ≤ vs_radius b ∧
    vs_radius 1 = 1.5 ∧
    vs_radius 0.03 = 0 ∧
    (∀ o : ℝ, o < 0.03 → vs_radius o = 0) := by
  refine ⟨fun o => by simp [vs_radius, vs_eps], ?_, ?_,
    vs_radius_eq_zero_of_le le_rfl,
    fun o ho => vs_radius_eq_zero_of_le ho.le⟩
  · -- monotonicity
    have hmax : max a vs_eps ≤ max b vs_eps := max_le_max hab le_rfl
    have heps : (0:ℝ) < vs_eps := by norm_num [vs_eps]
    have hdiv : max a vs_eps / vs_eps ≤ max b vs_eps / vs_eps :=
      div_le_div_of_nonneg_right hmax heps.le
    have hpos : (0:ℝ) < max a vs_eps / vs_eps :=
      div_pos (lt_of_lt_of_le heps (le_max_right _ _)) heps
    have hlog : Real.log (max a vs_eps / vs_eps) ≤
        Real.log (max b vs_eps / vs_eps) := Real.log_le_log hpos hdiv
    have h2 : 2 * Real.log (max a vs_eps / vs_eps) ≤
        2 * Real.log (max b vs_eps / vs_eps) := by linarith
    exact min_le_min (Real.sqrt_le_sqrt (max_le_max h2 le_rfl)) le_rfl
  · -- opacity 1 gives the cap
    have hone : max (1:ℝ) vs_eps = 1 := max_eq_left (by norm_num [vs_eps])
    have harg : (9/4 : ℝ) ≤ 2 * Real.log ((1:ℝ) / vs_eps) := by
      have : ((1:ℝ) / vs_eps) = 100 / 3 := by norm_num [vs_eps]
      rw [this]
      linarith [le_log_hundred_div_three]
    have hcap : (1.5 : ℝ) ≤ Real.sqrt (max (2 * Real.log ((1:ℝ) / vs_eps)) 0) := by
      have h94 : Real.sqrt (9/4 : ℝ) = 3/2 := by
        rw [show (9/4 : ℝ) = (3/2)^2 by norm_num]
        exact Real.sqrt_sq (by norm_num)
      calc (1.5 : ℝ) = Real.sqrt (9/4) := by rw [h94]; norm_num
        _ ≤ _ := Real.sqrt_le_sqrt (le_trans harg (le_max_left _ _))
    simp only [vs_radius, hone]
    exact min_eq_right hcap

/-- C4: at the quad center the fragment alpha equals the opacity exactly,
and at any local position of length ≥ 1 the alpha is 0 and the fragment is
discarded. -/
theorem frag_alpha_center_edge (op lx ly : ℝ) (c : Vec3 ℝ)
    (h : 1 ≤ lx * lx + ly * ly) :
    frag_alpha op 0 0 = op ∧
    frag_alpha op lx ly = 0 ∧
    fragment_shader c op lx ly = none := by
  have hzero : frag_alpha op lx ly = 0 := by
    have ht : glsl_clamp (1 - (lx * lx + ly * ly)) 0 1 = 0 := by
      have : max (1 - (lx * lx + ly * ly)) 0 = 0 := max_eq_right (by linarith)
      simp [glsl_clamp, this]
    simp [frag_alpha, ht]
  refine ⟨by norm_num [frag_alpha, glsl_clamp], hzero, ?_⟩
  simp only [fragment_shader]
  rw [if_pos (by rw [hzero]; norm_num [fs_threshold])]

/-- C5: a fragment is discarded iff its alpha is strictly below 0.03; alpha
exactly 0.03 is kept, and the fragment threshold is the same `eps` constant
as the vertex-stage radius derivation. -/
theorem fragment_discard_iff (c : Vec3 ℝ) (op lx ly : ℝ) :
    (fragment_shader c op lx ly = none ↔ frag_alpha op lx ly < fs_threshold) ∧
    (frag_alpha op lx ly = fs_threshold → fragment_shader c op lx ly ≠ none) ∧
    fs_threshold = vs_eps := by
  refine ⟨?_, ?_, by norm_num [fs_threshold, vs_eps]⟩
  · by_cases h : frag_alpha op lx ly < fs_threshold
    · simp only [fragment_shader]
      rw [if_pos h]
      simpa using h
    · simp only [fragment_shader]
      rw [if_neg h]
      simp [h]
  · intro heq
    simp only [fragment_shader]
    rw [if_neg (by rw [heq]; exact lt_irrefl _)]
    simp

/-- C7: the camera-space depth is `max(-(view*vec4(mean,1)).z, 0.1)`, hence
at least 0.1, and each clamped billboard scale axis is at most `0.01 * z`. -/
theorem vs_depth_scale_clamp (view : Mat4) (m : Vec3 ℝ) (sx sy : ℝ) :
    vs_depth view m =
      max (-(mat4_mul_vec4 view ⟨m.x, m.y, m.z, 1⟩).z) 0.1 ∧
    0.1 ≤ vs_depth view m ∧
    (vs_clamped_scale view m sx sy).1 ≤ 0.01 * vs_depth view m ∧
    (vs_clamped_scale view m sx sy).2 ≤ 0.01 * vs_depth view m := by
  refine ⟨rfl, le_max_right _ _, ?_, ?_⟩ <;>
    simp [vs_clamped_scale]

/-- C6: rendering a scene with zero records issues no GL command at all —
no packing, no buffer upload, no state change, no draw call. -/
theorem render_scene_empty_no_effects (view proj : Mat4) :
    render_scene [] view proj = [] := by
  simp [render_scene]

/-- C8: on a non-empty scene, `render_scene` ends by re-enabling depth
writes and disabling blending right after the draw call, so from any
starting GL state the final state has depth mask true and blending off. -/
theorem render_scene_restores_state (gs : List (Gaussian3D ℝ))
    (view proj : Mat4) (s : GLState) (h : gs ≠ []) :
    (∃ pre, render_scene gs view proj =
        pre ++ [GLCmd.drawArraysInstanced 6 (pack_instances gs).length,
                GLCmd.depthMask true, GLCmd.blend false]) ∧
    (runCmds s (render_scene gs view proj)).depthMaskFlag = true ∧
    (runCmds s (render_scene gs view proj)).blendEnabled = false := by
  cases gs with
  | nil => exact absurd rfl h
  | cons g t =>
    refine ⟨⟨[GLCmd.bufferData (pack_instances (g :: t)),
      GLCmd.blend true, GLCmd.blendFuncPremultiplied, GLCmd.depthTest true,
      GLCmd.depthMask false, GLCmd.useProgram, GLCmd.setViewProj view proj,
      GLCmd.bindVertexArray, GLCmd.bindArrayBuffer, GLCmd.instanceAttribs],
      by simp [render_scene]⟩, ?_, ?_⟩ <;>
      simp [render_scene, runCmds, applyCmd]

/-- C9: a compile or link failure makes pipeline creation throw an error
whose message carries the diagnostic log; `Renderer::create_shader_program`
re-throws the same error after logging it, and the failing shader or
program object is deleted before the throw. -/
theorem create_shader_program_failure (env : GLShaderEnv) :
    (Renderer.create_shader_program env).1 = (Shader.create_program env).1 ∧
    (∀ e, (Shader.create_program env).1 = Except.error e →
      GLObjAct.logError ("[Renderer] Shader creation failed: " ++ e) ∈
        (Renderer.create_shader_program env).2) ∧
    (env.vsOk = false →
      (Renderer.create_shader_program env).1 =
        Except.error ("Shader compile failed: " ++ env.vsLog) ∧
      GLObjAct.deleteShader 1 ∈ (Renderer.create_shader_program env).2) ∧
    (env.vsOk = true → env.fsOk = false →
      (Renderer.create_shader_program env).1 =
        Except.error ("Shader compile failed: " ++ env.fsLog) ∧
      GLObjAct.deleteShader 2 ∈ (Renderer.create_shader_program env).2) ∧
    (env.vsOk = true → env.fsOk = true → env.linkOk = false →
      (Renderer.create_shader_program env).1 =
        Except.error ("Program link failed: " ++ env.linkLog) ∧
      GLObjAct.deleteProgram 3 ∈ (Renderer.create_shader_program env).2) := by
  obtain ⟨vsOk, vsLog, fsOk, fsLog, linkOk, linkLog⟩ := env
  cases vsOk <;> cases fsOk <;> cases linkOk <;>
    simp [Renderer.create_shader_program, Shader.create_program, Shader.compile]

/-- Witness for C9 at a concrete environment: link failure with log text
`linkdiag`. -/
theorem create_shader_program_failure_witness :
    (Renderer.create_shader_program ⟨true, "", true, "", false, "linkdiag"⟩).1 =
      Except.error ("Program link failed: " ++ "linkdiag") ∧
    GLObjAct.deleteProgram 3 ∈
      (Renderer.create_shader_program ⟨true, "", true, "", false, "linkdiag"⟩).2 :=
  (create_shader_program_failure
    ⟨true, "", true, "", false, "linkdiag"⟩).2.2.2.2 rfl rfl rfl

/-- Witness for C1 at a concrete one-record scene. -/
theorem pack_instances_length_get_witness :
    (0 : ℕ) <
      ([(⟨⟨1, 2, 3⟩, ⟨4, 5, 6⟩, ⟨0, 0, 0, 1⟩, 1/2, ⟨7, 8, 9⟩⟩ : Gaussian3D ℚ)]).length ∧
    (pack_instances
      [(⟨⟨1, 2, 3⟩, ⟨4, 5, 6⟩, ⟨0, 0, 0, 1⟩, 1/2, ⟨7, 8, 9⟩⟩ : Gaussian3D ℚ)]).length =
      ([(⟨⟨1, 2, 3⟩, ⟨4, 5, 6⟩, ⟨0, 0, 0, 1⟩, 1/2, ⟨7, 8, 9⟩⟩ : Gaussian3D ℚ)]).length :=
  ⟨by decide,
   (pack_instances_length_get
     [(⟨⟨1, 2, 3⟩, ⟨4, 5, 6⟩, ⟨0, 0, 0, 1⟩, 1/2, ⟨7, 8, 9⟩⟩ : Gaussian3D ℚ)]
     0 (by decide)).1⟩

/-- Witness for C2 at concrete opacities 0.01 ≤ 0.02 (both below eps). -/
theorem vs_radius_spec_witness :
    ((1 : ℝ)/100 ≤ 2/100) ∧
    vs_radius ((1 : ℝ)/100) ≤ vs_radius ((2 : ℝ)/100) ∧
    vs_radius 1 = 1.5 ∧
    vs_radius ((1 : ℝ)/100) = 0 :=
  ⟨by norm_num,
   (vs_radius_spec ((1 : ℝ)/100) ((2 : ℝ)/100) (by norm_num)).2.1,
   (vs_radius_spec ((1 : ℝ)/100) ((2 : ℝ)/100) (by norm_num)).2.2.1,
   (vs_radius_spec ((1 : ℝ)/100) ((2 : ℝ)/100) (by norm_num)).2.2.2.2
     ((1 : ℝ)/100) (by norm_num)⟩

/-- Witness for C4 at opacity 1/2 and the quad corner (1,1). -/
theorem frag_alpha_center_edge_witness :
    frag_alpha (1/2) 0 0 = 1/2 ∧
    frag_alpha (1/2) 1 1 = 0 ∧
    fragment_shader ⟨1, 0, 0⟩ (1/2) 1 1 = none :=
  frag_alpha_center_edge (1/2) 1 1 ⟨1, 0, 0⟩ (by norm_num)

/-- Witness for C5: opacity 0.03 at the quad center has alpha exactly 0.03
and is not discarded. -/
theorem fragment_discard_iff_witness :
    fragment_shader ⟨1, 0, 0⟩ (3/100) 0 0 ≠ none :=
  (fragment_discard_iff ⟨1, 0, 0⟩ (3/100) 0 0).2.1
    (by norm_num [frag_alpha, glsl_clamp, fs_threshold])

/-- Witness for C8 at a concrete one-record scene and zero matrices,
starting from a state with blending on and depth writes off. -/
theorem render_scene_restores_state_witness :
    (runCmds ⟨true, false, false⟩
      (render_scene [(⟨⟨0, 0, 0⟩, ⟨1, 1, 1⟩, ⟨0, 0, 0, 1⟩, 1, ⟨1, 0, 0⟩⟩ : Gaussian3D ℝ)]
        (fun _ _ => 0) (fun _ _ => 0))).depthMaskFlag = true ∧
    (runCmds ⟨true, false, false⟩
      (render_scene [(⟨⟨0, 0, 0⟩, ⟨1, 1, 1⟩, ⟨0, 0, 0, 1⟩, 1, ⟨1, 0, 0⟩⟩ : Gaussian3D ℝ)]
        (fun _ _ => 0) (fun _ _ => 0))).blendEnabled = false :=
  ⟨(render_scene_restores_state
      [(⟨⟨0, 0, 0⟩, ⟨1, 1, 1⟩, ⟨0, 0, 0, 1⟩, 1, ⟨1, 0, 0⟩⟩ : Gaussian3D ℝ)]
      (fun _ _ => 0) (fun _ _ => 0) ⟨true, false, false⟩ (by simp)).2.1,
   (render_scene_restores_state
      [(⟨⟨0, 0, 0⟩, ⟨1, 1, 1⟩, ⟨0, 0, 0, 1⟩, 1, ⟨1, 0, 0⟩⟩ : Gaussian3D ℝ)]
      (fun _ _ => 0) (fun _ _ => 0) ⟨true, false, false⟩ (by simp)).2.2⟩

/-- Witness for C3 at a concrete record. -/
theorem unpack_pack_roundtrip_witness :
    unpack_instance (pack_gaussian
      (⟨⟨1, 2, 3⟩, ⟨4, 5, 6⟩, ⟨0, 0, 0, 1⟩, 1/2, ⟨7, 8, 9⟩⟩ : Gaussian3D ℚ)) =
    (⟨⟨1, 2, 3⟩, ⟨4, 5, 6⟩, ⟨0, 0, 0, 1⟩, 1/2, ⟨7, 8, 9⟩⟩ : Gaussian3D ℚ) :=
  unpack_pack_roundtrip _

/-- Witness for C6 at concrete zero matrices. -/
theorem render_scene_empty_no_effects_witness :
    render_scene [] (fun _ _ => 0) (fun _ _ => 0) = [] :=
  render_scene_empty_no_effects (fun _ _ => 0) (fun _ _ => 0)

/-- Witness for C7 at the zero view matrix and unit scales. -/
theorem vs_depth_scale_clamp_witness :
    0.1 ≤ vs_depth (fun _ _ => 0) ⟨0, 0, 0⟩ ∧
    (vs_clamped_scale (fun _ _ => 0) ⟨0, 0, 0⟩ 1 1).1 ≤
      0.01 * vs_depth (fun _ _ => 0) ⟨0, 0, 0⟩ :=
  ⟨(vs_depth_scale_clamp (fun _ _ => 0) ⟨0, 0, 0⟩ 1 1).2.1,
   (vs_depth_scale_clamp (fun _ _ => 0) ⟨0, 0, 0⟩ 1 1).2.2.1⟩

/-- Helper: an entry without a `color` member aborts the gaussian loop
with an exception. -/
lemma parse_gaussians_error_of_mem {item : Json} {l : List Json}
    (hmem : item ∈ l) (hc : item.containsKey "color" = false) :
    ∃ e, parse_gaussians l = Except.error e := by
  induction l with
  | nil => cases hmem
  | cons hd tl ih =>
    rcases List.mem_cons.mp hmem with rfl | hmem₂
    · refine ⟨SceneIOError.gaussianMissingColor, ?_⟩
      have h1 : parse_gaussian item =
          Except.error SceneIOError.gaussianMissingColor := by
        simp [parse_gaussian, hc]
      simp only [parse_gaussians, h1]
      rfl
    · match hhd : parse_gaussian hd with
      | Except.error e =>
        refine ⟨e, ?_⟩
        simp only [parse_gaussians, hhd]
        rfl
      | Except.ok g =>
        obtain ⟨e, he⟩ := ih hmem₂
        refine ⟨e, ?_⟩
        simp only [parse_gaussians, hhd, he]
        rfl

/-- C10: the loader throws when the document lacks a `gaussians` array or
an entry lacks `color`; an entry carrying only `color` gets the defaults
mean (0,0,0), scale (1,1,1), identity rotation (w = 1), opacity 1, also
when the optional fields are present but malformed; a fully specified
entry is loaded with its exact values, unclamped. -/
theorem load_scene_json_spec (j item : Json)
    (c0 c1 c2 m0 m1 m2 s0 s1 s2 r0 r1 r2 r3 op : ℚ) :
    ((j.containsKey "gaussians" && (j.getKey "gaussians").isArr) = false →
      load_scene_json j = Except.error SceneIOError.missingGaussiansArray) ∧
    (item ∈ (j.getKey "gaussians").elems →
      item.containsKey "color" = false →
      ∃ e, load_scene_json j = Except.error e) ∧
    (item.containsKey "color" = false →
      parse_gaussian item = Except.error SceneIOError.gaussianMissingColor) ∧
    (parse_gaussian (Json.obj
        [("color", Json.arr [Json.num c0, Json.num c1, Json.num c2])]) =
      Except.ok { mean := ⟨0, 0, 0⟩, scale := ⟨1, 1, 1⟩,
                  rotation := ⟨0, 0, 0, 1⟩, opacity := 1, color := ⟨c0, c1, c2⟩ }) ∧
    (parse_gaussian (Json.obj
        [("color", Json.arr [Json.num c0, Json.num c1, Json.num c2]),
         ("mean", Json.str "oops"),
         ("scale", Json.arr [Json.num s0, Json.num s1]),
         ("rotation", Json.num r0),
         ("opacity", Json.str "oops")]) =
      Except.ok { mean := ⟨0, 0, 0⟩, scale := ⟨1, 1, 1⟩,
                  rotation := ⟨0, 0, 0, 1⟩, opacity := 1, color := ⟨c0, c1, c2⟩ }) ∧
    (parse_gaussian (Json.obj
        [("color", Json.arr [Json.num c0, Json.num c1, Json.num c2]),
         ("mean", Json.arr [Json.num m0, Json.num m1, Json.num m2]),
         ("scale", Json.arr [Json.num s0, Json.num s1, Json.num s2]),
         ("rotation", Json.arr [Json.num r0, Json.num r1, Json.num r2, Json.num r3]),
         ("opacity", Json.num op)]) =
      Except.ok { mean := ⟨m0, m1, m2⟩, scale := ⟨s0, s1, s2⟩,
                  rotation := ⟨r1, r2, r3, r0⟩, opacity := op, color := ⟨c0, c1, c2⟩ }) := by
  refine ⟨fun h => by simp [load_scene_json, h], ?_, fun hc => by
    simp [parse_gaussian, hc], ?_, ?_, ?_⟩
  · intro hmem hc
    by_cases harr : (j.containsKey "gaussians" && (j.getKey "gaussians").isArr) = true
    · obtain ⟨e, he⟩ := parse_gaussians_error_of_mem hmem hc
      exact ⟨e, by simp [load_scene_json, harr, he]⟩
    · exact ⟨SceneIOError.missingGaussiansArray, by
        simp [load_scene_json, Bool.not_eq_true _ ▸ harr,
          eq_false_of_ne_true harr]⟩
  · rfl
  · rfl
  · rfl

/-- Witness for C10 at concrete documents: a document without `gaussians`,
a gaussian without `color`, and the default-filled single-color entry. -/
theorem load_scene_json_spec_witness :
    load_scene_json (Json.obj [("nope", Json.null)]) =
      Except.error SceneIOError.missingGaussiansArray ∧
    parse_gaussian (Json.obj [("opacity", Json.num 2)]) =
      Except.error SceneIOError.gaussianMissingColor ∧
    parse_gaussian (Json.obj
        [("color", Json.arr [Json.num 1, Json.num 0, Json.num 0])]) =
      Except.ok { mean := ⟨0, 0, 0⟩, scale := ⟨1, 1, 1⟩,
                  rotation := ⟨0, 0, 0, 1⟩, opacity := 1, color := ⟨1, 0, 0⟩ } :=
  ⟨(load_scene_json_spec (Json.obj [("nope", Json.null)]) Json.null
      1 0 0 0 0 0 0 0 0 0 0 0 0 0).1 rfl,
   (load_scene_json_spec Json.null (Json.obj [("opacity", Json.num 2)])
      1 0 0 0 0 0 0 0 0 0 0 0 0 0).2.2.1 rfl,
   (load_scene_json_spec Json.null Json.null
      1 0 0 0 0 0 0 0 0 0 0 0 0 0).2.2.2.1⟩

end SSS
